import Mathlib

/-!
Verification of the systemd-firstboot provisioning tool (src/firstboot/firstboot.c)
against its natural-language specification.

The development shallowly embeds the settings-application engine and the
credential-database writer.  Pure C helpers become Lean functions; the
filesystem and the external collaborators (locale/keymap/timezone enumerators,
validators, the password hashing primitive, terminal input) are passed in
explicitly as data, mirroring the interfaces the spec declares out of scope.
Machine integers of the C code that matter here (error codes, day counts) are
modelled as Int; the 128-bit machine identifier as Nat (0 = the all-zero id).
-/

namespace Firstboot

/-- Errno values used by firstboot.c (positive constants; the code returns
their negations). -/
def ENOENT : Int := 2

def EEXIST : Int := 17

def EINVAL : Int := 22

/-- The struct passwd record as read and written by fgetpwent_sane/putpwent_sane
(firstboot.c write_root_passwd). -/
structure PasswdRecord where
  pw_name : String
  pw_passwd : String
  pw_uid : Nat
  pw_gid : Nat
  pw_gecos : String
  pw_dir : String
  pw_shell : String
deriving Repr, DecidableEq

/-- The struct spwd record as read and written by fgetspent_sane/putspent_sane
(firstboot.c write_root_shadow).  sp_flag is `(unsigned long) -1` in the C
source; all "unset" aging fields are modelled as the Int -1 the C code
assigns. -/
structure ShadowRecord where
  sp_namp : String
  sp_pwdp : String
  sp_lstchg : Int
  sp_min : Int
  sp_max : Int
  sp_warn : Int
  sp_inact : Int
  sp_expire : Int
  sp_flag : Int
deriving Repr, DecidableEq

/-- Per-record transformation inside write_root_passwd's read loop
(firstboot.c lines 609-617): the record named "root" gets its password
field replaced, every other record passes through unchanged. -/
def updateRootPasswd (password : String) (i : PasswdRecord) : PasswdRecord :=
  if i.pw_name = "root" then { i with pw_passwd := password } else i

/-- The root record synthesized by write_root_passwd when the passwd file
does not exist (firstboot.c lines 622-630). -/
def rootPasswdDefault (password : String) : PasswdRecord :=
  { pw_name := "root"
    pw_passwd := password
    pw_uid := 0
    pw_gid := 0
    pw_gecos := "Super User"
    pw_dir := "/root"
    pw_shell := "/bin/sh" }

/-- Content written to the temporary file by write_root_passwd on its success
path: if the original file exists its records are streamed through
`updateRootPasswd`; if it does not exist (fopen fails with ENOENT) a single
synthesized root record is written. -/
def write_root_passwd_content (orig : Option (List PasswdRecord)) (password : String) :
    List PasswdRecord :=
  match orig with
  | some recs => recs.map (updateRootPasswd password)
  | none => [rootPasswdDefault password]

/-- Per-record transformation inside write_root_shadow's read loop
(firstboot.c lines 672-682): the record named "root" gets its password hash
replaced and its last-change day stamped with `today`
(now(CLOCK_REALTIME) / USEC_PER_DAY). -/
def updateRootShadow (hash : String) (today : Int) (i : ShadowRecord) : ShadowRecord :=
  if i.sp_namp = "root" then { i with sp_pwdp := hash, sp_lstchg := today } else i

/-- The root record synthesized by write_root_shadow when the shadow file
does not exist (firstboot.c lines 687-697). -/
def rootShadowDefault (hash : String) (today : Int) : ShadowRecord :=
  { sp_namp := "root"
    sp_pwdp := hash
    sp_lstchg := today
    sp_min := -1
    sp_max := -1
    sp_warn := -1
    sp_inact := -1
    sp_expire := -1
    sp_flag := -1 }

/-- Content written to the temporary file by write_root_shadow on its success
path. -/
def write_root_shadow_content (orig : Option (List ShadowRecord)) (hash : String)
    (today : Int) : List ShadowRecord :=
  match orig with
  | some recs => recs.map (updateRootShadow hash today)
  | none => [rootShadowDefault hash today]

/-! ### Fault-injected run of the transactional writers (claim C2)

write_root_passwd and write_root_shadow have the same step structure:
open temporary file → open original → (sync rights and stream records | check
errno, chmod 0000, write synthesized root) → fflush+fsync → rename over the
original path.  The `_cleanup_(unlink_and_freep)` attribute unlinks the
temporary file name on every exit path (after a successful rename that name no
longer exists).  `FailPoint` selects which single step fails, with the
(negative) error it fails with. -/

inductive FailPoint where
  | noFail : FailPoint
  /-- fopen_temporary_label fails (line 597/660); no temporary file exists. -/
  | atTmpOpen (e : Int) : FailPoint
  /-- fopen of the original fails with errno ≠ ENOENT (line 632/699). -/
  | atOrigOpen (e : Int) : FailPoint
  /-- sync_rights fails (line 605/668); only reachable when the original exists. -/
  | atSyncRights (e : Int) : FailPoint
  /-- fchmod fails (line 635/702); only reachable when the original is absent. -/
  | atChmod (e : Int) : FailPoint
  /-- fgetpwent_sane/fgetspent_sane fails after n records were copied (line 618/683). -/
  | atRead (n : Nat) (e : Int) : FailPoint
  /-- putpwent_sane/putspent_sane of the n-th record fails (line 614/679);
  in the original-absent branch n = 0 is the synthesized record (line 639/706). -/
  | atPut (n : Nat) (e : Int) : FailPoint
  /-- fflush_sync_and_check fails (line 644/711). -/
  | atFlush (e : Int) : FailPoint
  /-- rename_and_apply_smack_floor_label fails (line 648/715). -/
  | atRename (e : Int) : FailPoint
deriving Repr, DecidableEq

/-- A fail point is well-formed when its injected error is negative, as all
error returns in the C code are negative errno values. -/
def FailPoint.wf : FailPoint → Prop
  | .noFail => True
  | .atTmpOpen e => e < 0
  | .atOrigOpen e => e < 0
  | .atSyncRights e => e < 0
  | .atChmod e => e < 0
  | .atRead _ e => e < 0
  | .atPut _ e => e < 0
  | .atFlush e => e < 0
  | .atRename e => e < 0

/-- Observable state of one database path after a writer run: the content at
the database path and whether the sibling temporary file still exists. -/
structure DbFile (α : Type) where
  path : Option (List α)
  tmpExists : Bool
deriving Repr, DecidableEq

/-- One run of the transactional merge writer (shared skeleton of
write_root_passwd and write_root_shadow), with one fault injected at `fp`.
`merge` is the success-path content function.  A fail point that does not
occur on the taken branch (e.g. `atSyncRights` when the original file is
absent) means that step does not exist in this run, so the run completes.
Every non-success return unlinks the temporary file and leaves the original
path untouched; only a successful rename replaces the original path. -/
def db_merge_run {α : Type} (merge : Option (List α) → List α)
    (orig : Option (List α)) (fp : FailPoint) : Int × DbFile α :=
  match fp with
  | .atTmpOpen e => (e, { path := orig, tmpExists := false })
  | .atOrigOpen e =>
      (e, { path := orig, tmpExists := false })
  | .atSyncRights e =>
      match orig with
      | some _ => (e, { path := orig, tmpExists := false })
      | none => (0, { path := some (merge none), tmpExists := false })
  | .atChmod e =>
      match orig with
      | some _ => (0, { path := some (merge orig), tmpExists := false })
      | none => (e, { path := none, tmpExists := false })
  | .atRead n e =>
      match orig with
      | some recs =>
          if n ≤ recs.length then (e, { path := orig, tmpExists := false })
          else (0, { path := some (merge orig), tmpExists := false })
      | none => (0, { path := some (merge none), tmpExists := false })
  | .atPut n e =>
      match orig with
      | some recs =>
          if n < recs.length then (e, { path := orig, tmpExists := false })
          else (0, { path := some (merge orig), tmpExists := false })
      | none =>
          if n = 0 then (e, { path := none, tmpExists := false })
          else (0, { path := some (merge none), tmpExists := false })
  | .atFlush e => (e, { path := orig, tmpExists := false })
  | .atRename e => (e, { path := orig, tmpExists := false })
  | .noFail => (0, { path := some (merge orig), tmpExists := false })

/-- write_root_passwd (firstboot.c 592-653) under fault injection. -/
def write_root_passwd_run (orig : Option (List PasswdRecord)) (password : String)
    (fp : FailPoint) : Int × DbFile PasswdRecord :=
  db_merge_run (fun o => write_root_passwd_content o password) orig fp

/-- write_root_shadow (firstboot.c 655-720) under fault injection. -/
def write_root_shadow_run (orig : Option (List ShadowRecord)) (hash : String)
    (today : Int) (fp : FailPoint) : Int × DbFile ShadowRecord :=
  db_merge_run (fun o => write_root_shadow_content o hash today) orig fp

/-! ### String helpers from string-util.h, as used by firstboot.c -/

/-- isempty: a C string pointer is empty when it is NULL or "". -/
def isempty (s : Option String) : Bool := (s.getD "").isEmpty

/-- streq on possibly-NULL pointers: defined only when both are non-NULL
(strcmp requires non-NULL arguments); `none` is the undefined case. -/
def streq_opt : Option String → Option String → Option Bool
  | some a, some b => some (a = b)
  | _, _ => none

/-- streq_ptr: NULL-tolerant equality (two NULLs are equal, NULL never
equals a string). -/
def streq_ptr : Option String → Option String → Bool
  | some a, some b => a = b
  | none, none => true
  | _, _ => false

/-- Modelled from the spec: the numeric parse of menu input ("a successfully
parsed positive integer"), standing in for safe_atou of parse-util, whose
source is outside this repository snapshot: it succeeds exactly on non-empty
all-digit strings and yields their decimal value. -/
def safe_atou (s : String) : Option Nat :=
  if s ≠ "" ∧ s.data.all Char.isDigit then
    some (s.data.foldl (fun n c => n * 10 + (c.toNat - 48)) 0)
  else none

/-! ### Selection prompt (firstboot.c prompt_loop, lines 160-211)

Terminal input is embedded as the list of lines the operator types, in order.
The loop consumes one line per iteration; an empty list means the operator
never answers (in C the read would block forever), which the embedding reports
as `none`.  On a terminating iteration the result is the new value of `*ret`
(unchanged on skip, a candidate on numeric selection, the entered text on
validator success) together with the unconsumed input. -/

def prompt_loop (l : List String) (is_valid : String → Bool) :
    Option String → List String → Option (Option String × List String)
  | _, [] => none
  | ret, p :: rest =>
      if p = "" then
        some (ret, rest)
      else if p = "list" then
        prompt_loop l is_valid ret rest
      else
        match safe_atou p with
        | some u =>
            if u = 0 ∨ u > l.length then prompt_loop l is_valid ret rest
            else some (some (l.getD (u - 1) ""), rest)
        | none =>
            if is_valid p then some (some p, rest)
            else prompt_loop l is_valid ret rest

/-! ### External collaborators and process state

All flags, in-memory values only: the image of parse_argv's static arg_*
variables (firstboot.c lines 37-57). -/

structure Config where
  root : Option String := none
  locale : Option String := none
  keymap : Option String := none
  locale_messages : Option String := none
  timezone : Option String := none
  hostname : Option String := none
  machine_id : Nat := 0
  root_password : Option String := none
  kernel_cmdline : Option String := none
  prompt_locale : Bool := false
  prompt_keymap : Bool := false
  prompt_timezone : Bool := false
  prompt_hostname : Bool := false
  prompt_root_password : Bool := false
  copy_locale : Bool := false
  copy_keymap : Bool := false
  copy_timezone : Bool := false
  copy_root_password : Bool := false
  force : Bool := false
  delete_root_password : Bool := false
  root_password_is_hashed : Bool := false
deriving Repr, DecidableEq

/-- Destination files under the (optionally alternate) root, by content.
`none` means the file does not exist.  The machine-id file stores the
identifier value it holds. -/
structure Fs where
  locale_conf : Option (List String) := none
  vconsole_conf : Option (List String) := none
  localtime : Option String := none
  hostname_file : Option String := none
  machine_id_file : Option Nat := none
  shadow : Option (List ShadowRecord) := none
  passwd : Option (List PasswdRecord) := none
  kernel_cmdline_file : Option String := none
deriving Repr, DecidableEq

/-- A host-side source consulted by a copy-from-host step: absent (read
reports ENOENT), present with content, or failing with some other (negative)
error. -/
inductive HostFile (α : Type) where
  | absent : HostFile α
  | present (a : α) : HostFile α
  | ioError (e : Int) : HostFile α
deriving Repr, DecidableEq

/-- The external collaborators of firstboot.c, fixed for one run: candidate
enumerators, the host's own configuration files, validators, the hashing
primitive, the clock, terminal input and the kernel-command-line switch.
In C these are library calls; here they are data. -/
structure Ext where
  get_locales : Except Int (List String) := .ok []
  get_keymaps : Except Int (List String) := .ok []
  get_timezones : Except Int (List String) := .ok []
  host_locale_conf : HostFile (List String) := .absent
  host_vconsole_conf : HostFile (List String) := .absent
  host_localtime : HostFile String := .absent
  host_shadow_root : HostFile ShadowRecord := .absent
  lock_result : Except Int Unit := .ok ()
  crypt_r : String → String → Option String := fun _ _ => none
  make_salt : Except Int String := .error (-EINVAL)
  today : Int := 0
  locale_is_ok : String → Bool := fun _ => true
  keymap_is_valid : String → Bool := fun _ => true
  timezone_is_valid : String → Bool := fun _ => true
  hostname_is_valid : String → Bool := fun _ => true
  hostname_cleanup : String → String := fun s => s
  default_locale : String := "C.UTF-8"
  locale_inputs : List String := []
  keymap_inputs : List String := []
  timezone_inputs : List String := []
  hostname_inputs : List String := []
  password_inputs : List String := []
  read_one_line_file : String → Except Int String := fun _ => .error (-ENOENT)
  sd_id128_from_string : String → Option Nat := fun _ => none
  sd_id128_randomize : Except Int Nat := .ok 1
  firstboot_setting : Except Int (Option Bool) := .ok none

/-! ### Setting resolvers (process_* functions)

Each resolver returns `some (r, fs)` with the C return code and the resulting
filesystem.  `none` marks a run the embedding cannot give a meaning to:
either the operator input ran out (the C code would block reading the
terminal) or an undefined C operation was reached (the streq of a NULL
pointer in process_locale, claim C10). -/

/-- copy_file's result as seen by the caller: content on success, -ENOENT
when the host source is absent, the error otherwise. -/
def copy_file_ret {α : Type} : HostFile α → Except Int α
  | .present a => .ok a
  | .absent => .error (-ENOENT)
  | .ioError e => .error e

/-- prompt_locale (firstboot.c 221-272): resolves (arg_locale,
arg_locale_messages).  Interactive paths consume ext.locale_inputs. -/
def prompt_locale (cfg : Config) (ext : Ext) :
    Option (Except Int (Option String × Option String)) :=
  if cfg.locale.isSome || cfg.locale_messages.isSome then
    some (.ok (cfg.locale, cfg.locale_messages))
  else if !cfg.prompt_locale then
    some (.ok (cfg.locale, cfg.locale_messages))
  else
    match ext.get_locales with
    | .error e => some (.error e)
    | .ok locales =>
        if locales.isEmpty then
          some (.ok (cfg.locale, cfg.locale_messages))
        else if locales.length = 1 then
          if locales.getD 0 "" = ext.default_locale then
            some (.ok (cfg.locale, cfg.locale_messages))
          else
            some (.ok (some (locales.getD 0 ""), cfg.locale_messages))
        else
          match prompt_loop locales ext.locale_is_ok cfg.locale ext.locale_inputs with
          | none => none
          | some (loc, rest) =>
              if isempty loc then some (.ok (loc, cfg.locale_messages))
              else
                match prompt_loop locales ext.locale_is_ok cfg.locale_messages rest with
                | none => none
                | some (msgs, _) =>
                    if streq_ptr loc msgs then some (.ok (loc, none))
                    else some (.ok (loc, msgs))

/-- The env-file lines built by process_locale (firstboot.c 301-309).
Line 303 applies plain streq to arg_locale_messages (known non-empty there)
and arg_locale (possibly NULL): `none` is the undefined comparison. -/
def locale_conf_lines (loc msgs : Option String) : Option (List String) :=
  let l1 : List String := if !isempty loc then ["LANG=" ++ loc.getD ""] else []
  if isempty msgs then some l1
  else
    match streq_opt msgs loc with
    | none => none
    | some b => if !b then some (l1 ++ ["LC_MESSAGES=" ++ msgs.getD ""]) else some l1

/-- process_locale (firstboot.c 274-318). -/
def process_locale (cfg : Config) (ext : Ext) (fs : Fs) : Option (Int × Fs) :=
  if fs.locale_conf.isSome && !cfg.force then some (0, fs)
  else
    let copyStep : Option (Int × Fs) :=
      if cfg.copy_locale && cfg.root.isSome then
        match copy_file_ret ext.host_locale_conf with
        | .ok c => some (0, { fs with locale_conf := some c })
        | .error e => if e = -ENOENT then none else some (e, fs)
      else none
    match copyStep with
    | some r => some r
    | none =>
        match prompt_locale cfg ext with
        | none => none
        | some (.error e) => some (e, fs)
        | some (.ok (loc, msgs)) =>
            match locale_conf_lines loc msgs with
            | none => none
            | some [] => some (0, fs)
            | some lines => some (0, { fs with locale_conf := some lines })

/-- prompt_keymap (firstboot.c 320-340): a get_keymaps failure is propagated,
including -ENOENT. -/
def prompt_keymap (cfg : Config) (ext : Ext) : Option (Except Int (Option String)) :=
  if cfg.keymap.isSome then some (.ok cfg.keymap)
  else if !cfg.prompt_keymap then some (.ok cfg.keymap)
  else
    match ext.get_keymaps with
    | .error e => some (.error e)
    | .ok kmaps =>
        match prompt_loop kmaps ext.keymap_is_valid cfg.keymap ext.keymap_inputs with
        | none => none
        | some (k, _) => some (.ok k)

/-- process_keymap (firstboot.c 342-385): a prompt_keymap result of -ENOENT
(no keymaps installed) is converted to success/skip (line 365-366). -/
def process_keymap (cfg : Config) (ext : Ext) (fs : Fs) : Option (Int × Fs) :=
  if fs.vconsole_conf.isSome && !cfg.force then some (0, fs)
  else
    let copyStep : Option (Int × Fs) :=
      if cfg.copy_keymap && cfg.root.isSome then
        match copy_file_ret ext.host_vconsole_conf with
        | .ok c => some (0, { fs with vconsole_conf := some c })
        | .error e => if e = -ENOENT then none else some (e, fs)
      else none
    match copyStep with
    | some r => some r
    | none =>
        match prompt_keymap cfg ext with
        | none => none
        | some (.error e) => if e = -ENOENT then some (0, fs) else some (e, fs)
        | some (.ok k) =>
            if isempty k then some (0, fs)
            else some (0, { fs with vconsole_conf := some ["KEYMAP=" ++ k.getD ""] })

/-- symlink(2): fails with EEXIST when the destination path already exists. -/
def symlink_create (target : String) (dest : Option String) : Except Int String :=
  match dest with
  | some _ => .error (-EEXIST)
  | none => .ok target

/-- prompt_timezone (firstboot.c 391-413). -/
def prompt_timezone (cfg : Config) (ext : Ext) : Option (Except Int (Option String)) :=
  if cfg.timezone.isSome then some (.ok cfg.timezone)
  else if !cfg.prompt_timezone then some (.ok cfg.timezone)
  else
    match ext.get_timezones with
    | .error e => some (.error e)
    | .ok zones =>
        match prompt_loop zones ext.timezone_is_valid cfg.timezone ext.timezone_inputs with
        | none => none
        | some (tz, _) => some (.ok tz)

/-- process_timezone (firstboot.c 415-455): the copy step reads the host's
/etc/localtime symlink target and recreates the symlink under the root. -/
def process_timezone (cfg : Config) (ext : Ext) (fs : Fs) : Option (Int × Fs) :=
  if fs.localtime.isSome && !cfg.force then some (0, fs)
  else
    let copyStep : Option (Int × Fs) :=
      if cfg.copy_timezone && cfg.root.isSome then
        match ext.host_localtime with
        | .present p =>
            some (match symlink_create p fs.localtime with
              | .ok t => (0, { fs with localtime := some t })
              | .error e => (e, fs))
        | .ioError e => if e = -ENOENT then none else some (e, fs)
        | .absent => none
      else none
    match copyStep with
    | some r => some r
    | none =>
        match prompt_timezone cfg ext with
        | none => none
        | some (.error e) => some (e, fs)
        | some (.ok tz) =>
            if isempty tz then some (0, fs)
            else
              match symlink_create ("../usr/share/zoneinfo/" ++ tz.getD "") fs.localtime with
              | .ok t => some (0, { fs with localtime := some t })
              | .error e => some (e, fs)

/-- The retry loop of prompt_hostname (firstboot.c 469-490): empty input
skips, invalid input re-prompts, valid input is kept after hostname_cleanup
(which strips the allowed trailing dot). -/
def prompt_hostname_loop (is_valid : String → Bool) (cleanup : String → String) :
    List String → Option (Option String)
  | [] => none
  | h :: rest =>
      if h = "" then some none
      else if !is_valid h then prompt_hostname_loop is_valid cleanup rest
      else some (some (cleanup h))

/-- prompt_hostname (firstboot.c 457-493). -/
def prompt_hostname (cfg : Config) (ext : Ext) : Option (Option String) :=
  if cfg.hostname.isSome then some cfg.hostname
  else if !cfg.prompt_hostname then some cfg.hostname
  else prompt_hostname_loop ext.hostname_is_valid ext.hostname_cleanup ext.hostname_inputs

/-- process_hostname (firstboot.c 495-518). -/
def process_hostname (cfg : Config) (ext : Ext) (fs : Fs) : Option (Int × Fs) :=
  if fs.hostname_file.isSome && !cfg.force then some (0, fs)
  else
    match prompt_hostname cfg ext with
    | none => none
    | some h =>
        if isempty h then some (0, fs)
        else some (0, { fs with hostname_file := some (h.getD "") })

/-- process_machine_id (firstboot.c 520-540): no interactive path; an
all-zero in-memory identifier (sd_id128_is_null) means nothing is written. -/
def process_machine_id (cfg : Config) (fs : Fs) : Int × Fs :=
  if fs.machine_id_file.isSome && !cfg.force then (0, fs)
  else if cfg.machine_id = 0 then (0, fs)
  else (0, { fs with machine_id_file := some cfg.machine_id })

/-- The two-prompt retry loop of prompt_root_password (firstboot.c 558-587):
first entry empty skips; mismatching confirmation restarts the pair. -/
def prompt_root_password_loop : List String → Option (Option String)
  | [] => none
  | a :: rest =>
      if a = "" then some none
      else
        match rest with
        | [] => none
        | b :: rest2 => if a = b then some (some a) else prompt_root_password_loop rest2

/-- prompt_root_password (firstboot.c 542-590). -/
def prompt_root_password (cfg : Config) (ext : Ext) : Option (Option String) :=
  if cfg.root_password.isSome then some cfg.root_password
  else if !cfg.prompt_root_password then some cfg.root_password
  else prompt_root_password_loop ext.password_inputs

/-- process_root_password (firstboot.c 722-806).  The database writers are
used on their success path here; their failure behavior is modelled
separately by `db_merge_run`. -/
def process_root_password (cfg : Config) (ext : Ext) (fs : Fs) : Option (Int × Fs) :=
  if fs.shadow.isSome && !cfg.force then some (0, fs)
  else
    match ext.lock_result with
    | .error e => some (e, fs)
    | .ok _ =>
        if cfg.delete_root_password then
          some (0, { fs with passwd := some (write_root_passwd_content fs.passwd "") })
        else
          let copyStep : Option (Int × Fs) :=
            if cfg.copy_root_password && cfg.root.isSome then
              match ext.host_shadow_root with
              | .present p =>
                  some (0, { fs with
                    shadow := some (write_root_shadow_content fs.shadow p.sp_pwdp ext.today) })
              | .ioError e => if e = -ENOENT then none else some (e, fs)
              | .absent => none
            else none
          match copyStep with
          | some r => some r
          | none =>
              match prompt_root_password cfg ext with
              | none => none
              | some none => some (0, fs)
              | some (some password) =>
                  let hashed : Except Int String :=
                    if cfg.root_password_is_hashed then .ok password
                    else
                      match ext.make_salt with
                      | .error e => .error e
                      | .ok salt =>
                          match ext.crypt_r password salt with
                          | none => .error (-EINVAL)
                          | some h => .ok h
                  match hashed with
                  | .error e => some (e, fs)
                  | .ok h =>
                      some (0, { fs with
                        shadow := some (write_root_shadow_content fs.shadow h ext.today) })

/-- process_kernel_cmdline (firstboot.c 808-827). -/
def process_kernel_cmdline (cfg : Config) (fs : Fs) : Int × Fs :=
  if fs.kernel_cmdline_file.isSome && !cfg.force then (0, fs)
  else
    match cfg.kernel_cmdline with
    | none => (0, fs)
    | some k => (0, { fs with kernel_cmdline_file := some k })

/-! ### Argument parsing (firstboot.c parse_argv, lines 873-1124) -/

/-- One recognized command-line option, already split from the argv text by
getopt_long. -/
inductive Arg where
  | help : Arg
  | version : Arg
  | root (s : String) : Arg
  | locale (s : String) : Arg
  | localeMessages (s : String) : Arg
  | keymap (s : String) : Arg
  | timezone (s : String) : Arg
  | hostname (s : String) : Arg
  | machineId (s : String) : Arg
  | rootPassword (s : String) : Arg
  | rootPasswordFile (p : String) : Arg
  | rootPasswordHashed (s : String) : Arg
  | kernelCommandLine (s : String) : Arg
  | prompt : Arg
  | promptLocale : Arg
  | promptKeymap : Arg
  | promptTimezone : Arg
  | promptHostname : Arg
  | promptRootPassword : Arg
  | copy : Arg
  | copyLocale : Arg
  | copyKeymap : Arg
  | copyTimezone : Arg
  | copyRootPassword : Arg
  | setupMachineId : Arg
  | force : Arg
  | deleteRootPassword : Arg
deriving Repr, DecidableEq

/-- One iteration of parse_argv's switch: `.ok none` is the early exit of
help/version (exit status 0 without provisioning); `.error e` a fatal
parse error. -/
def parse_one (ext : Ext) (cfg : Config) : Arg → Except Int (Option Config)
  | .help => .ok none
  | .version => .ok none
  | .root s => .ok (some { cfg with root := some s })
  | .locale s => .ok (some { cfg with locale := some s })
  | .localeMessages s => .ok (some { cfg with locale_messages := some s })
  | .keymap s =>
      if ext.keymap_is_valid s then .ok (some { cfg with keymap := some s })
      else .error (-EINVAL)
  | .timezone s =>
      if ext.timezone_is_valid s then .ok (some { cfg with timezone := some s })
      else .error (-EINVAL)
  | .hostname s =>
      if ext.hostname_is_valid s then
        .ok (some { cfg with hostname := some (ext.hostname_cleanup s) })
      else .error (-EINVAL)
  | .machineId s =>
      match ext.sd_id128_from_string s with
      | some id => .ok (some { cfg with machine_id := id })
      | none => .error (-EINVAL)
  | .rootPassword s =>
      .ok (some { cfg with root_password := some s, root_password_is_hashed := false })
  | .rootPasswordFile p =>
      match ext.read_one_line_file p with
      | .error e => .error e
      | .ok s =>
          .ok (some { cfg with root_password := some s, root_password_is_hashed := false })
  | .rootPasswordHashed s =>
      .ok (some { cfg with root_password := some s, root_password_is_hashed := true })
  | .kernelCommandLine s => .ok (some { cfg with kernel_cmdline := some s })
  | .prompt =>
      .ok (some { cfg with prompt_locale := true, prompt_keymap := true,
                           prompt_timezone := true, prompt_hostname := true,
                           prompt_root_password := true })
  | .promptLocale => .ok (some { cfg with prompt_locale := true })
  | .promptKeymap => .ok (some { cfg with prompt_keymap := true })
  | .promptTimezone => .ok (some { cfg with prompt_timezone := true })
  | .promptHostname => .ok (some { cfg with prompt_hostname := true })
  | .promptRootPassword => .ok (some { cfg with prompt_root_password := true })
  | .copy =>
      .ok (some { cfg with copy_locale := true, copy_keymap := true,
                           copy_timezone := true, copy_root_password := true })
  | .copyLocale => .ok (some { cfg with copy_locale := true })
  | .copyKeymap => .ok (some { cfg with copy_keymap := true })
  | .copyTimezone => .ok (some { cfg with copy_timezone := true })
  | .copyRootPassword => .ok (some { cfg with copy_root_password := true })
  | .setupMachineId =>
      match ext.sd_id128_randomize with
      | .error e => .error e
      | .ok id => .ok (some { cfg with machine_id := id })
  | .force => .ok (some { cfg with force := true })
  | .deleteRootPassword => .ok (some { cfg with delete_root_password := true })

/-- The getopt_long loop of parse_argv. -/
def parse_args_fold (ext : Ext) : Config → List Arg → Except Int (Option Config)
  | cfg, [] => .ok (some cfg)
  | cfg, a :: rest =>
      match parse_one ext cfg a with
      | .error e => .error e
      | .ok none => .ok none
      | .ok (some cfg2) => parse_args_fold ext cfg2 rest

/-- parse_argv: the option loop followed by the post-loop validations
(firstboot.c 1111-1123): locale installedness, then the mutual exclusion of
--delete-root-password with any other root password source. -/
def parse_argv (ext : Ext) (args : List Arg) : Except Int (Option Config) :=
  match parse_args_fold ext {} args with
  | .error e => .error e
  | .ok none => .ok none
  | .ok (some cfg) =>
      if cfg.locale.isSome && !ext.locale_is_ok (cfg.locale.getD "") then
        .error (-EINVAL)
      else if cfg.locale_messages.isSome && !ext.locale_is_ok (cfg.locale_messages.getD "") then
        .error (-EINVAL)
      else if cfg.delete_root_password &&
          (cfg.copy_root_password || cfg.root_password.isSome || cfg.prompt_root_password) then
        .error (-EINVAL)
      else .ok (some cfg)

/-- The root-password-source condition of the mutual-exclusion check
(firstboot.c line 1119): a copy request, an in-memory password (set by
--root-password=, --root-password-file= or --root-password-hashed=), or a
prompt request. -/
def rpSourceB (cfg : Config) : Bool :=
  cfg.copy_root_password || cfg.root_password.isSome || cfg.prompt_root_password

/-- The options the claim lists as "other root-password sources". -/
def Arg.isRootPasswordSource (a : Arg) : Prop :=
  (∃ s, a = Arg.rootPassword s) ∨ (∃ p, a = Arg.rootPasswordFile p) ∨
    (∃ s, a = Arg.rootPasswordHashed s) ∨ a = Arg.promptRootPassword ∨
    a = Arg.copyRootPassword

/-! ### Provisioning driver (firstboot.c run, lines 1126-1173) -/

/-- The driver: the systemd.firstboot= kill switch, then the seven settings
in their fixed order, aborting on the first negative return. -/
def run_driver (cfg : Config) (ext : Ext) (fs : Fs) : Option (Int × Fs) :=
  match ext.firstboot_setting with
  | .error e => some (e, fs)
  | .ok st =>
      if st = some false then some (0, fs)
      else
        match process_locale cfg ext fs with
        | none => none
        | some (r1, fs1) =>
            if r1 < 0 then some (r1, fs1)
            else
              match process_keymap cfg ext fs1 with
              | none => none
              | some (r2, fs2) =>
                  if r2 < 0 then some (r2, fs2)
                  else
                    match process_timezone cfg ext fs2 with
                    | none => none
                    | some (r3, fs3) =>
                        if r3 < 0 then some (r3, fs3)
                        else
                          match process_hostname cfg ext fs3 with
                          | none => none
                          | some (r4, fs4) =>
                              if r4 < 0 then some (r4, fs4)
                              else
                                match process_machine_id cfg fs4 with
                                | (r5, fs5) =>
                                    if r5 < 0 then some (r5, fs5)
                                    else
                                      match process_root_password cfg ext fs5 with
                                      | none => none
                                      | some (r6, fs6) =>
                                          if r6 < 0 then some (r6, fs6)
                                          else
                                            match process_kernel_cmdline cfg fs6 with
                                            | (r7, fs7) =>
                                                if r7 < 0 then some (r7, fs7)
                                                else some (0, fs7)

/-- The whole program: parse_argv, then (unless parsing failed or help/version
exited early) the driver.  The filesystem is untouched unless the driver
runs. -/
def firstboot_main (ext : Ext) (args : List Arg) (fs : Fs) : Option (Int × Fs) :=
  match parse_argv ext args with
  | .error e => some (e, fs)
  | .ok none => some (0, fs)
  | .ok (some cfg) => run_driver cfg ext fs

/-! ### Concrete scenario data used by counterexamples and witnesses -/

/-- A password-table record for an account other than root. -/
def nonRootRecord : PasswdRecord :=
  { pw_name := "daemon"
    pw_passwd := "x"
    pw_uid := 1
    pw_gid := 1
    pw_gecos := "daemon"
    pw_dir := "/usr/sbin"
    pw_shell := "/usr/sbin/nologin" }

/-- A shadow-table record for an account other than root. -/
def nonRootShadow : ShadowRecord :=
  { sp_namp := "daemon"
    sp_pwdp := "*"
    sp_lstchg := 18000
    sp_min := -1
    sp_max := -1
    sp_warn := -1
    sp_inact := -1
    sp_expire := -1
    sp_flag := -1 }

/-- Flags of the spec's scenario: a plaintext root credential supplied
non-interactively (--root-password=hunter2). -/
def scenarioCfg : Config := { root_password := some "hunter2" }

/-- Externals of the spec's scenario: a working hashing primitive (modelled
as prepending the salt), a fresh salt, and day count 19000. -/
def scenarioExt : Ext :=
  { crypt_r := fun p s => some (s ++ p)
    make_salt := .ok "Sa"
    today := 19000 }

/-! ## Theorems -/

/-- Helper: prompt_loop consumes a leading "list" line without terminating. -/
theorem prompt_loop_list_cons (l : List String) (v : String → Bool)
    (r0 : Option String) (rest : List String) :
    prompt_loop l v r0 ("list" :: rest) = prompt_loop l v r0 rest := by
  simp [prompt_loop]

/-- Helper: a transcript consisting only of "list" lines never terminates the
prompt loop. -/
theorem prompt_loop_replicate_list (l : List String) (v : String → Bool)
    (r0 : Option String) : ∀ k, prompt_loop l v r0 (List.replicate k "list") = none := by
  intro k
  induction k with
  | zero => rfl
  | succ n ih => rw [List.replicate_succ, prompt_loop_list_cons, ih]

/-- C9: the machine-identity setting writes nothing and succeeds whenever the
in-memory identifier is the all-zero value, regardless of the force flag and
of whether the destination exists. -/
theorem c9_machine_id_skip (cfg : Config) (fs : Fs) (h : cfg.machine_id = 0) :
    process_machine_id cfg fs = (0, fs) := by
  unfold process_machine_id
  rw [h]
  simp

/-- C9 witness: a run with neither --machine-id= nor --setup-machine-id, over
an empty root, leaves the filesystem untouched. -/
theorem c9_machine_id_skip_witness :
    ({} : Config).machine_id = 0 ∧ process_machine_id {} {} = (0, {}) :=
  ⟨rfl, c9_machine_id_skip {} {} rfl⟩

/-- C10: when a message locale is resolved but no primary locale is, the
suppression guard at firstboot.c line 303 compares a non-empty string to a
NULL pointer with plain streq; the embedding's undefined branch (`none`) is
reachable, so the write step is not total under that input. -/
theorem c10_streq_null_reachable (cfg : Config) (ext : Ext) (fs : Fs) (m : String)
    (hdest : fs.locale_conf = none) (hcopy : cfg.copy_locale = false)
    (hloc : cfg.locale = none) (hmsg : cfg.locale_messages = some m) (hm : m ≠ "") :
    process_locale cfg ext fs = none := by
  unfold process_locale prompt_locale locale_conf_lines
  rw [hdest, hcopy, hloc, hmsg]
  simp [isempty, streq_opt, String.isEmpty_iff, hm]

/-- C10 witness: only --locale-messages= is supplied; the run reaches the
undefined comparison. -/
theorem c10_streq_null_reachable_witness :
    process_locale { locale_messages := some "de_DE.UTF-8" } {} {} = none :=
  c10_streq_null_reachable { locale_messages := some "de_DE.UTF-8" } {} {} "de_DE.UTF-8"
    rfl rfl rfl rfl (by decide)

/-- C1 counterexample: a password table that exists and holds one record, none
of them named "root".  The claim demands the rewritten table hold N+1 = 2
records with a synthesized root record appended; the code emits exactly the
original N = 1 records and no root record. -/
theorem c1_merge_counterexample :
    (write_root_passwd_content (some [nonRootRecord]) "secret").length = 1 ∧
    (write_root_passwd_content (some [nonRootRecord]) "secret").all
      (fun r => !(r.pw_name == "root")) = true := by
  constructor
  · rfl
  · decide

/-- C1 (amended): when the table file exists with N records, the rewritten
table holds exactly those N records in order; the record named "root" changes
only its credential field (password table) or its credential and
last-change-day fields (shadow table); every other record passes through
unchanged; no root record is synthesized even when none is present.  The
synthesized root record with the documented defaults is produced exactly when
the table file is absent, and then it is the only record. -/
theorem c1_merge_invariant :
    ∀ (recs : List PasswdRecord) (srecs : List ShadowRecord) (pw hash : String)
      (today : Int) (i : Nat),
      (write_root_passwd_content (some recs) pw).length = recs.length
      ∧ (write_root_passwd_content (some recs) pw)[i]? = (recs[i]?).map (updateRootPasswd pw)
      ∧ (∀ r : PasswdRecord, r.pw_name ≠ "root" → updateRootPasswd pw r = r)
      ∧ (∀ r : PasswdRecord, r.pw_name = "root" →
          updateRootPasswd pw r = { r with pw_passwd := pw })
      ∧ ((∀ r ∈ recs, r.pw_name ≠ "root") → write_root_passwd_content (some recs) pw = recs)
      ∧ write_root_passwd_content none pw =
          [{ pw_name := "root", pw_passwd := pw, pw_uid := 0, pw_gid := 0,
             pw_gecos := "Super User", pw_dir := "/root", pw_shell := "/bin/sh" }]
      ∧ (write_root_shadow_content (some srecs) hash today).length = srecs.length
      ∧ (write_root_shadow_content (some srecs) hash today)[i]? =
          (srecs[i]?).map (updateRootShadow hash today)
      ∧ (∀ r : ShadowRecord, r.sp_namp ≠ "root" → updateRootShadow hash today r = r)
      ∧ (∀ r : ShadowRecord, r.sp_namp = "root" →
          updateRootShadow hash today r = { r with sp_pwdp := hash, sp_lstchg := today })
      ∧ ((∀ r ∈ srecs, r.sp_namp ≠ "root") →
          write_root_shadow_content (some srecs) hash today = srecs)
      ∧ write_root_shadow_content none hash today =
          [{ sp_namp := "root", sp_pwdp := hash, sp_lstchg := today, sp_min := -1,
             sp_max := -1, sp_warn := -1, sp_inact := -1, sp_expire := -1, sp_flag := -1 }] := by
  intro recs srecs pw hash today i
  refine ⟨?_, ?_, ?_, ?_, ?_, rfl, ?_, ?_, ?_, ?_, ?_, rfl⟩
  · simp [write_root_passwd_content]
  · simp [write_root_passwd_content]
  · intro r hr
    simp [updateRootPasswd, hr]
  · intro r hr
    simp [updateRootPasswd, hr]
  · intro hnone
    have : ∀ r ∈ recs, updateRootPasswd pw r = r := by
      intro r hr
      simp [updateRootPasswd, hnone r hr]
    simp [write_root_passwd_content]
    calc recs.map (updateRootPasswd pw) = recs.map id := List.map_congr_left this
    _ = recs := List.map_id recs
  · simp [write_root_shadow_content]
  · simp [write_root_shadow_content]
  · intro r hr
    simp [updateRootShadow, hr]
  · intro r hr
    simp [updateRootShadow, hr]
  · intro hnone
    have : ∀ r ∈ srecs, updateRootShadow hash today r = r := by
      intro r hr
      simp [updateRootShadow, hnone r hr]
    simp [write_root_shadow_content]
    calc srecs.map (updateRootShadow hash today) = srecs.map id := List.map_congr_left this
    _ = srecs := List.map_id srecs

/-- C1 witness: concrete tables.  A root-less existing table passes through
unchanged; an absent shadow table yields exactly the synthesized record. -/
theorem c1_merge_invariant_witness :
    write_root_passwd_content (some [nonRootRecord]) "secret" = [nonRootRecord] ∧
    (write_root_shadow_content (some [nonRootShadow]) "HH" 19000).length = 1 := by
  have h := c1_merge_invariant [nonRootRecord] [nonRootShadow] "secret" "HH" 19000 0
  exact ⟨h.2.2.2.2.1 (by decide), h.2.2.2.2.2.2.1⟩

/-- C4 counterexample: with a validator that rejects every string, the
non-empty input "1" still terminates the loop by numeric selection, so empty
input is not the only terminating path that does not require validator
success. -/
theorem c4_prompt_counterexample :
    prompt_loop ["x"] (fun _ => false) none ["1"] = some (some "x", []) ∧
    (fun (_ : String) => false) "x" = false ∧ "1" ≠ "" := by
  refine ⟨by decide, rfl, by decide⟩

/-- C4 (amended): empty input terminates with "skipped" (ret unchanged);
"list" re-prompts without ever terminating; a parsed positive integer u
terminates with candidate u exactly when 1 ≤ u ≤ len(candidates) and
re-prompts otherwise; other non-empty input terminates iff the validator
accepts it.  Empty input and in-range numeric selection are the terminating
paths that do not require validator success (numeric selection draws from the
candidate list without revalidation). -/
theorem c4_prompt_loop_behavior :
    (∀ (l : List String) (v : String → Bool) (r0 : Option String) (rest : List String),
        prompt_loop l v r0 ("" :: rest) = some (r0, rest)) ∧
    (∀ (l : List String) (v : String → Bool) (r0 : Option String) (rest : List String),
        prompt_loop l v r0 ("list" :: rest) = prompt_loop l v r0 rest) ∧
    (∀ (l : List String) (v : String → Bool) (r0 : Option String) (k : Nat),
        prompt_loop l v r0 (List.replicate k "list") = none) ∧
    (∀ (l : List String) (v : String → Bool) (r0 : Option String) (rest : List String)
        (p : String) (u : Nat), p ≠ "" → p ≠ "list" → safe_atou p = some u →
        (1 ≤ u → u ≤ l.length →
          prompt_loop l v r0 (p :: rest) = some (some (l.getD (u - 1) ""), rest)) ∧
        (u = 0 ∨ u > l.length →
          prompt_loop l v r0 (p :: rest) = prompt_loop l v r0 rest)) ∧
    (∀ (l : List String) (v : String → Bool) (r0 : Option String) (rest : List String)
        (p : String), p ≠ "" → p ≠ "list" → safe_atou p = none →
        (v p = true → prompt_loop l v r0 (p :: rest) = some (some p, rest)) ∧
        (v p = false → prompt_loop l v r0 (p :: rest) = prompt_loop l v r0 rest)) := by
  refine ⟨?_, ?_, ?_, ?_, ?_⟩
  · intro l v r0 rest
    simp [prompt_loop]
  · intro l v r0 rest
    exact prompt_loop_list_cons l v r0 rest
  · intro l v r0 k
    exact prompt_loop_replicate_list l v r0 k
  · intro l v r0 rest p u hp hl h
    constructor
    · intro h1 h2
      have hno : ¬(u = 0 ∨ u > l.length) := by omega
      simp [prompt_loop, hp, hl, h, hno]
    · intro hrange
      simp [prompt_loop, hp, hl, h, hrange]
  · intro l v r0 rest p hp hl h
    constructor
    · intro hv
      simp [prompt_loop, hp, hl, h, hv]
    · intro hv
      simp [prompt_loop, hp, hl, h, hv]

/-- C4 witness: concrete transcripts exercising each path of the amended
statement. -/
theorem c4_prompt_loop_behavior_witness :
    prompt_loop ["a", "b"] (fun s => s = "ok") none ["" ] = some (none, []) ∧
    prompt_loop ["a", "b"] (fun s => s = "ok") none ["list", ""] = some (none, []) ∧
    prompt_loop ["a", "b"] (fun s => s = "ok") none (List.replicate 3 "list") = none ∧
    prompt_loop ["a", "b"] (fun s => s = "ok") none ["2"] = some (some "b", []) ∧
    prompt_loop ["a", "b"] (fun s => s = "ok") none ["3", "ok"] = some (some "ok", []) := by
  have h := c4_prompt_loop_behavior
  refine ⟨h.1 ["a", "b"] (fun s => s = "ok") none [], ?_, ?_, ?_, ?_⟩
  · rw [h.2.1 ["a", "b"] (fun s => s = "ok") none [""]]
    exact h.1 ["a", "b"] (fun s => s = "ok") none []
  · exact h.2.2.1 ["a", "b"] (fun s => s = "ok") none 3
  · exact (h.2.2.2.1 ["a", "b"] (fun s => s = "ok") none [] "2" 2 (by decide) (by decide)
      (by decide)).1 (by decide) (by decide)
  · rw [(h.2.2.2.1 ["a", "b"] (fun s => s = "ok") none ["ok"] "3" 3 (by decide) (by decide)
      (by decide)).2 (by decide)]
    exact (h.2.2.2.2 ["a", "b"] (fun s => s = "ok") none [] "ok" (by decide) (by decide)
      (by decide)).1 (by decide)

/-- Helper: a fault-injected run of the transactional writer either fails with
a negative code, leaving the database path untouched, or succeeds returning 0
with the merged content installed; the temporary file never survives. -/
theorem db_merge_run_cases {α : Type} (merge : Option (List α) → List α)
    (orig : Option (List α)) (fp : FailPoint) (hwf : fp.wf) :
    ((db_merge_run merge orig fp).1 < 0 →
      (db_merge_run merge orig fp).2 = { path := orig, tmpExists := false }) ∧
    ((db_merge_run merge orig fp).1 = 0 →
      (db_merge_run merge orig fp).2 = { path := some (merge orig), tmpExists := false }) ∧
    (db_merge_run merge orig fp).2.tmpExists = false := by
  cases fp <;> cases orig <;>
    simp only [db_merge_run, FailPoint.wf] at hwf ⊢ <;>
    (try split) <;>
    refine ⟨fun h => ?_, fun h => ?_, ?_⟩ <;>
    first
      | trivial
      | rfl
      | exact absurd h (by omega)

/-- C2: for both credential databases, any injected failure between (and
including) temporary-file creation and the final rename returns an error,
leaves the original database content byte-for-byte untouched and removes the
temporary file; the only run that changes the database path is the fully
successful one, which installs exactly the merged content via the final
rename of the flushed temporary file. -/
theorem c2_transactional_write (orig : Option (List PasswdRecord))
    (sorig : Option (List ShadowRecord)) (pw hash : String) (today : Int)
    (fp fq : FailPoint) (hp : fp.wf) (hq : fq.wf) :
    ((write_root_passwd_run orig pw fp).1 < 0 →
      (write_root_passwd_run orig pw fp).2 = { path := orig, tmpExists := false }) ∧
    ((write_root_passwd_run orig pw fp).1 = 0 →
      (write_root_passwd_run orig pw fp).2 =
        { path := some (write_root_passwd_content orig pw), tmpExists := false }) ∧
    (write_root_passwd_run orig pw fp).2.tmpExists = false ∧
    ((write_root_shadow_run sorig hash today fq).1 < 0 →
      (write_root_shadow_run sorig hash today fq).2 = { path := sorig, tmpExists := false }) ∧
    ((write_root_shadow_run sorig hash today fq).1 = 0 →
      (write_root_shadow_run sorig hash today fq).2 =
        { path := some (write_root_shadow_content sorig hash today), tmpExists := false }) ∧
    (write_root_shadow_run sorig hash today fq).2.tmpExists = false := by
  have h1 := db_merge_run_cases (fun o => write_root_passwd_content o pw) orig fp hp
  have h2 := db_merge_run_cases (fun o => write_root_shadow_content o hash today) sorig fq hq
  exact ⟨h1.1, h1.2.1, h1.2.2, h2.1, h2.2.1, h2.2.2⟩

/-- C2 witness: a flush failure over an existing one-record password table
leaves it untouched with the temporary file removed, and a fault-free shadow
run over an absent shadow file installs the merged content. -/
theorem c2_transactional_write_witness :
    (write_root_passwd_run (some [nonRootRecord]) "pw" (.atFlush (-5))).2 =
      { path := some [nonRootRecord], tmpExists := false } ∧
    (write_root_shadow_run none "HH" 19000 .noFail).2 =
      { path := some (write_root_shadow_content none "HH" 19000), tmpExists := false } := by
  have h := c2_transactional_write (some [nonRootRecord]) none "pw" "HH" 19000
    (.atFlush (-5)) .noFail (by norm_num [FailPoint.wf]) (by simp [FailPoint.wf])
  exact ⟨h.1 (by decide), h.2.2.2.2.1 rfl⟩

/-- C3 counterexample: the spec's scenario (plaintext "hunter2", not
pre-hashed, no existing shadow file).  The shadow table gains the root record
with the salted hash and today's day count — but the password table is never
touched on this path: it gains no record at all, in particular none with the
placeholder "x".  Only the --delete-root-password path writes the password
table. -/
theorem c3_scenario_counterexample :
    process_root_password scenarioCfg scenarioExt {} =
      some (0, { shadow := some [rootShadowDefault "Sahunter2" 19000] }) ∧
    ({ shadow := some [rootShadowDefault "Sahunter2" 19000] } : Fs).passwd = none := by
  exact ⟨by decide, rfl⟩

/-- C3 (amended): with a plaintext, not pre-hashed credential against an
absent shadow table, the shadow table gains exactly one record for "root"
whose hash is crypt_r(plaintext, freshly generated salt) — the value password
verification recomputes — and whose last-change day is the current day count;
the password table is left unmodified (the placeholder write the spec
describes does not exist on this path). -/
theorem c3_plaintext_scenario (cfg : Config) (ext : Ext) (fs : Fs)
    (pw salt h : String)
    (hpw : cfg.root_password = some pw) (hhash : cfg.root_password_is_hashed = false)
    (hdel : cfg.delete_root_password = false) (hcopy : cfg.copy_root_password = false)
    (hshadow : fs.shadow = none) (hlock : ext.lock_result = .ok ())
    (hsalt : ext.make_salt = .ok salt) (hcrypt : ext.crypt_r pw salt = some h) :
    process_root_password cfg ext fs =
      some (0, { fs with shadow := some [rootShadowDefault h ext.today] }) ∧
    rootShadowDefault h ext.today =
      { sp_namp := "root", sp_pwdp := h, sp_lstchg := ext.today, sp_min := -1, sp_max := -1,
        sp_warn := -1, sp_inact := -1, sp_expire := -1, sp_flag := -1 } ∧
    ({ fs with shadow := some [rootShadowDefault h ext.today] } : Fs).passwd = fs.passwd := by
  refine ⟨?_, rfl, rfl⟩
  unfold process_root_password prompt_root_password
  rw [hshadow, hlock, hdel, hcopy, hpw, hhash, hsalt]
  simp [hcrypt, write_root_shadow_content]

/-- C3 witness: the concrete scenario data instantiates the amended
statement. -/
theorem c3_plaintext_scenario_witness :
    process_root_password scenarioCfg scenarioExt {} =
      some (0, { shadow := some [rootShadowDefault "Sahunter2" 19000] }) :=
  (c3_plaintext_scenario scenarioCfg scenarioExt {} "hunter2" "Sa" "Sahunter2"
    rfl rfl rfl rfl rfl rfl rfl rfl).1

/-- C5: with both an explicit value and copy-from-host supplied under an
alternate root, copy-from-host runs first (a present host source wins and the
explicit value is never written); exactly when the host source is absent does
resolution fall through to the explicit value; any other copy failure aborts
the setting with that error.  Shown for the locale and timezone resolvers the
claim cites. -/
theorem c5_copy_precedence :
    (∀ (cfg : Config) (ext : Ext) (fs : Fs) (c : List String) (v : String),
        cfg.copy_locale = true → cfg.root.isSome = true → cfg.locale = some v →
        fs.locale_conf = none → ext.host_locale_conf = .present c →
        process_locale cfg ext fs = some (0, { fs with locale_conf := some c })) ∧
    (∀ (cfg : Config) (ext : Ext) (fs : Fs) (v : String),
        cfg.copy_locale = true → cfg.root.isSome = true → cfg.locale = some v → v ≠ "" →
        cfg.locale_messages = none → fs.locale_conf = none →
        ext.host_locale_conf = .absent →
        process_locale cfg ext fs =
          some (0, { fs with locale_conf := some ["LANG=" ++ v] })) ∧
    (∀ (cfg : Config) (ext : Ext) (fs : Fs) (v : String) (e : Int),
        cfg.copy_locale = true → cfg.root.isSome = true → cfg.locale = some v →
        fs.locale_conf = none → ext.host_locale_conf = .ioError e → e ≠ -ENOENT →
        process_locale cfg ext fs = some (e, fs)) ∧
    (∀ (cfg : Config) (ext : Ext) (fs : Fs) (p tz : String),
        cfg.copy_timezone = true → cfg.root.isSome = true → cfg.timezone = some tz →
        fs.localtime = none → ext.host_localtime = .present p →
        process_timezone cfg ext fs = some (0, { fs with localtime := some p })) ∧
    (∀ (cfg : Config) (ext : Ext) (fs : Fs) (tz : String),
        cfg.copy_timezone = true → cfg.root.isSome = true → cfg.timezone = some tz →
        tz ≠ "" → fs.localtime = none → ext.host_localtime = .absent →
        process_timezone cfg ext fs =
          some (0, { fs with localtime := some ("../usr/share/zoneinfo/" ++ tz) })) ∧
    (∀ (cfg : Config) (ext : Ext) (fs : Fs) (tz : String) (e : Int),
        cfg.copy_timezone = true → cfg.root.isSome = true → cfg.timezone = some tz →
        fs.localtime = none → ext.host_localtime = .ioError e → e ≠ -ENOENT →
        process_timezone cfg ext fs = some (e, fs)) := by
  refine ⟨?_, ?_, ?_, ?_, ?_, ?_⟩
  · intro cfg ext fs c v hcopy hroot hval hdest hhost
    unfold process_locale
    rw [hdest, hcopy, hroot, hhost]
    simp [copy_file_ret]
  · intro cfg ext fs v hcopy hroot hval hv hmsg hdest hhost
    unfold process_locale prompt_locale locale_conf_lines
    rw [hdest, hcopy, hroot, hhost, hval, hmsg]
    simp [copy_file_ret, ENOENT, isempty, String.isEmpty_iff, hv]
  · intro cfg ext fs v e hcopy hroot hval hdest hhost he
    unfold process_locale
    rw [hdest, hcopy, hroot, hhost]
    simp [copy_file_ret, he]
  · intro cfg ext fs p tz hcopy hroot hval hdest hhost
    unfold process_timezone
    rw [hdest, hcopy, hroot, hhost]
    simp [symlink_create]
  · intro cfg ext fs tz hcopy hroot hval hv hdest hhost
    unfold process_timezone prompt_timezone
    rw [hdest, hcopy, hroot, hhost, hval]
    simp [symlink_create, isempty, String.isEmpty_iff, hv]
  · intro cfg ext fs tz e hcopy hroot hval hdest hhost he
    unfold process_timezone
    rw [hdest, hcopy, hroot, hhost]
    simp [he]

/-- C5 witness: concrete runs for all six cases. -/
theorem c5_copy_precedence_witness :
    process_locale { copy_locale := true, root := some "/mnt", locale := some "de_DE.UTF-8" }
        { host_locale_conf := .present ["LANG=en_US.UTF-8"] } {} =
      some (0, { locale_conf := some ["LANG=en_US.UTF-8"] }) ∧
    process_locale { copy_locale := true, root := some "/mnt", locale := some "de_DE.UTF-8" }
        {} {} =
      some (0, { locale_conf := some ["LANG=de_DE.UTF-8"] }) ∧
    process_locale { copy_locale := true, root := some "/mnt", locale := some "de_DE.UTF-8" }
        { host_locale_conf := .ioError (-13) } {} =
      some (-13, {}) ∧
    process_timezone { copy_timezone := true, root := some "/mnt", timezone := some "UTC" }
        { host_localtime := .present "../usr/share/zoneinfo/Europe/Berlin" } {} =
      some (0, { localtime := some "../usr/share/zoneinfo/Europe/Berlin" }) ∧
    process_timezone { copy_timezone := true, root := some "/mnt", timezone := some "UTC" }
        {} {} =
      some (0, { localtime := some "../usr/share/zoneinfo/UTC" }) ∧
    process_timezone { copy_timezone := true, root := some "/mnt", timezone := some "UTC" }
        { host_localtime := .ioError (-13) } {} =
      some (-13, {}) := by
  have h := c5_copy_precedence
  refine ⟨?_, ?_, ?_, ?_, ?_, ?_⟩
  · exact h.1 _ _ _ ["LANG=en_US.UTF-8"] "de_DE.UTF-8" rfl rfl rfl rfl rfl
  · exact h.2.1 _ _ _ "de_DE.UTF-8" rfl rfl rfl (by decide) rfl rfl rfl
  · exact h.2.2.1 _ _ _ "de_DE.UTF-8" (-13) rfl rfl rfl rfl rfl (by decide)
  · exact h.2.2.2.1 _ _ _ "../usr/share/zoneinfo/Europe/Berlin" "UTC" rfl rfl rfl rfl rfl
  · exact h.2.2.2.2.1 _ _ _ "UTC" rfl rfl rfl (by decide) rfl rfl
  · exact h.2.2.2.2.2 _ _ _ "UTC" (-13) rfl rfl rfl rfl rfl (by decide)

/-- C8 counterexample: when the keymap list read fails with -ENOENT during an
interactive prompt, process_keymap returns 0 (the setting is skipped), not a
negative error, contradicting the claim that every candidate-list read
failure is fatal (firstboot.c line 365: "don't fail if no keymaps are
installed"). -/
theorem c8_keymap_enoent_counterexample :
    process_keymap { prompt_keymap := true } { get_keymaps := .error (-ENOENT) } {} =
      some (0, ({} : Fs)) := by
  decide

/-- C8 (amended): a failure to read the locale or timezone candidate list
during an interactive prompt aborts the resolver with that negative error, as
does a keymap list failure other than -ENOENT; the single exception is a
keymap list read failing with -ENOENT (no keymaps installed), which the
resolver converts to success/skip. -/
theorem c8_candidate_list_failure :
    (∀ (cfg : Config) (ext : Ext) (fs : Fs) (e : Int),
        fs.locale_conf = none → cfg.copy_locale = false → cfg.locale = none →
        cfg.locale_messages = none → cfg.prompt_locale = true →
        ext.get_locales = .error e →
        process_locale cfg ext fs = some (e, fs)) ∧
    (∀ (cfg : Config) (ext : Ext) (fs : Fs) (e : Int),
        fs.localtime = none → cfg.copy_timezone = false → cfg.timezone = none →
        cfg.prompt_timezone = true → ext.get_timezones = .error e →
        process_timezone cfg ext fs = some (e, fs)) ∧
    (∀ (cfg : Config) (ext : Ext) (fs : Fs) (e : Int),
        fs.vconsole_conf = none → cfg.copy_keymap = false → cfg.keymap = none →
        cfg.prompt_keymap = true → ext.get_keymaps = .error e → e ≠ -ENOENT →
        process_keymap cfg ext fs = some (e, fs)) ∧
    (∀ (cfg : Config) (ext : Ext) (fs : Fs),
        fs.vconsole_conf = none → cfg.copy_keymap = false → cfg.keymap = none →
        cfg.prompt_keymap = true → ext.get_keymaps = .error (-ENOENT) →
        process_keymap cfg ext fs = some (0, fs)) := by
  refine ⟨?_, ?_, ?_, ?_⟩
  · intro cfg ext fs e hdest hcopy hloc hmsg hprompt hlist
    unfold process_locale prompt_locale
    rw [hdest, hcopy, hloc, hmsg, hprompt, hlist]
    simp
  · intro cfg ext fs e hdest hcopy htz hprompt hlist
    unfold process_timezone prompt_timezone
    rw [hdest, hcopy, htz, hprompt, hlist]
    simp
  · intro cfg ext fs e hdest hcopy hk hprompt hlist he
    unfold process_keymap prompt_keymap
    rw [hdest, hcopy, hk, hprompt, hlist]
    simp [he]
  · intro cfg ext fs hdest hcopy hk hprompt hlist
    unfold process_keymap prompt_keymap
    rw [hdest, hcopy, hk, hprompt, hlist]
    simp

/-- C8 witness: concrete failing enumerators for all four cases. -/
theorem c8_candidate_list_failure_witness :
    process_locale { prompt_locale := true } { get_locales := .error (-13) } {} =
      some (-13, ({} : Fs)) ∧
    process_timezone { prompt_timezone := true } { get_timezones := .error (-13) } {} =
      some (-13, ({} : Fs)) ∧
    process_keymap { prompt_keymap := true } { get_keymaps := .error (-13) } {} =
      some (-13, ({} : Fs)) ∧
    process_keymap { prompt_keymap := true } { get_keymaps := .error (-2) } {} =
      some (0, ({} : Fs)) := by
  have h := c8_candidate_list_failure
  refine ⟨?_, ?_, ?_, ?_⟩
  · exact h.1 _ _ _ (-13) rfl rfl rfl rfl rfl rfl
  · exact h.2.1 _ _ _ (-13) rfl rfl rfl rfl rfl
  · exact h.2.2.1 _ _ _ (-13) rfl rfl rfl rfl rfl (by decide)
  · exact h.2.2.2 _ _ _ rfl rfl rfl rfl rfl

/-- Helper: skip-if-exists for the locale resolver. -/
theorem process_locale_skip (cfg : Config) (ext : Ext) (fs : Fs)
    (hf : cfg.force = false) (hd : fs.locale_conf.isSome = true) :
    process_locale cfg ext fs = some (0, fs) := by
  unfold process_locale
  rw [hd, hf]
  simp

/-- Helper: skip-if-exists for the keymap resolver. -/
theorem process_keymap_skip (cfg : Config) (ext : Ext) (fs : Fs)
    (hf : cfg.force = false) (hd : fs.vconsole_conf.isSome = true) :
    process_keymap cfg ext fs = some (0, fs) := by
  unfold process_keymap
  rw [hd, hf]
  simp

/-- Helper: skip-if-exists for the timezone resolver. -/
theorem process_timezone_skip (cfg : Config) (ext : Ext) (fs : Fs)
    (hf : cfg.force = false) (hd : fs.localtime.isSome = true) :
    process_timezone cfg ext fs = some (0, fs) := by
  unfold process_timezone
  rw [hd, hf]
  simp

/-- Helper: skip-if-exists for the hostname resolver. -/
theorem process_hostname_skip (cfg : Config) (ext : Ext) (fs : Fs)
    (hf : cfg.force = false) (hd : fs.hostname_file.isSome = true) :
    process_hostname cfg ext fs = some (0, fs) := by
  unfold process_hostname
  rw [hd, hf]
  simp

/-- Helper: skip-if-exists for the machine-identity resolver. -/
theorem process_machine_id_skip (cfg : Config) (fs : Fs)
    (hf : cfg.force = false) (hd : fs.machine_id_file.isSome = true) :
    process_machine_id cfg fs = (0, fs) := by
  unfold process_machine_id
  rw [hd, hf]
  simp

/-- Helper: skip-if-exists for the root-credential resolver (the tested
destination is the shadow file). -/
theorem process_root_password_skip (cfg : Config) (ext : Ext) (fs : Fs)
    (hf : cfg.force = false) (hd : fs.shadow.isSome = true) :
    process_root_password cfg ext fs = some (0, fs) := by
  unfold process_root_password
  rw [hd, hf]
  simp

/-- Helper: skip-if-exists for the kernel-command-line resolver. -/
theorem process_kernel_cmdline_skip (cfg : Config) (fs : Fs)
    (hf : cfg.force = false) (hd : fs.kernel_cmdline_file.isSome = true) :
    process_kernel_cmdline cfg fs = (0, fs) := by
  unfold process_kernel_cmdline
  rw [hd, hf]
  simp

/-- C6: without force-overwrite, every setting whose destination file exists
returns success and leaves it untouched, so a driver run over a root where
all destination files exist (as after a completed first run) changes no
file. -/
theorem c6_driver_idempotent (cfg : Config) (ext : Ext) (fs : Fs) (b : Option Bool)
    (hforce : cfg.force = false)
    (h1 : fs.locale_conf.isSome = true) (h2 : fs.vconsole_conf.isSome = true)
    (h3 : fs.localtime.isSome = true) (h4 : fs.hostname_file.isSome = true)
    (h5 : fs.machine_id_file.isSome = true) (h6 : fs.shadow.isSome = true)
    (h7 : fs.kernel_cmdline_file.isSome = true)
    (hfb : ext.firstboot_setting = .ok b) :
    run_driver cfg ext fs = some (0, fs) := by
  unfold run_driver
  rw [hfb]
  by_cases hb : b = some false
  · simp [hb]
  · simp [hb, process_locale_skip cfg ext fs hforce h1,
          process_keymap_skip cfg ext fs hforce h2,
          process_timezone_skip cfg ext fs hforce h3,
          process_hostname_skip cfg ext fs hforce h4,
          process_machine_id_skip cfg fs hforce h5,
          process_root_password_skip cfg ext fs hforce h6,
          process_kernel_cmdline_skip cfg fs hforce h7]

/-- C6 witness: a fully provisioned filesystem is untouched by a second,
force-less driver run. -/
theorem c6_driver_idempotent_witness :
    run_driver {} {}
      { locale_conf := some ["LANG=C.UTF-8"], vconsole_conf := some ["KEYMAP=us"],
        localtime := some "../usr/share/zoneinfo/UTC", hostname_file := some "host",
        machine_id_file := some 7, shadow := some [rootShadowDefault "HH" 19000],
        passwd := some [nonRootRecord], kernel_cmdline_file := some "quiet" } =
      some (0,
        { locale_conf := some ["LANG=C.UTF-8"], vconsole_conf := some ["KEYMAP=us"],
          localtime := some "../usr/share/zoneinfo/UTC", hostname_file := some "host",
          machine_id_file := some 7, shadow := some [rootShadowDefault "HH" 19000],
          passwd := some [nonRootRecord], kernel_cmdline_file := some "quiet" }) :=
  c6_driver_idempotent {} {} _ none rfl rfl rfl rfl rfl rfl rfl rfl rfl

/-- Helper: the only options whose parse step exits with `.ok none` are help
and version. -/
theorem parse_one_help_or_version (ext : Ext) (cfg : Config) (a : Arg)
    (h : parse_one ext cfg a = .ok none) : a = Arg.help ∨ a = Arg.version := by
  cases a <;>
    first
      | exact Or.inl rfl
      | exact Or.inr rfl
      | (simp only [parse_one] at h; (try split at h) <;> simp_all)

/-- Helper: no option step ever clears the delete-root-password flag or an
already-established root-password source. -/
theorem parse_one_mono (ext : Ext) (cfg : Config) (a : Arg) (cfg2 : Config)
    (h : parse_one ext cfg a = .ok (some cfg2)) :
    (cfg.delete_root_password = true → cfg2.delete_root_password = true) ∧
    (rpSourceB cfg = true → rpSourceB cfg2 = true) := by
  cases a <;> simp only [parse_one] at h <;> (try split at h) <;>
    first
      | (simp_all; done)
      | ((try simp only [Except.ok.injEq, Option.some.injEq] at h); subst h;
         constructor <;> intro hx <;> simp_all [rpSourceB])

/-- Helper: each of the five root-password-source options establishes the
source condition. -/
theorem parse_one_source_sets (ext : Ext) (cfg : Config) (a : Arg) (cfg2 : Config)
    (hs : a.isRootPasswordSource) (h : parse_one ext cfg a = .ok (some cfg2)) :
    rpSourceB cfg2 = true := by
  rcases hs with ⟨s, rfl⟩ | ⟨p, rfl⟩ | ⟨s, rfl⟩ | rfl | rfl <;>
    simp only [parse_one] at h <;> (try split at h) <;>
    first
      | (simp_all; done)
      | ((try simp only [Except.ok.injEq, Option.some.injEq] at h); subst h;
         simp [rpSourceB])

/-- Helper: monotonicity of the two conflict facts across the whole option
loop. -/
theorem fold_mono (ext : Ext) : ∀ (args : List Arg) (cfg cfg' : Config),
    parse_args_fold ext cfg args = .ok (some cfg') →
    (cfg.delete_root_password = true → cfg'.delete_root_password = true) ∧
    (rpSourceB cfg = true → rpSourceB cfg' = true) := by
  intro args
  induction args with
  | nil =>
    intro cfg cfg' h
    simp only [parse_args_fold, Except.ok.injEq, Option.some.injEq] at h
    subst h
    exact ⟨id, id⟩
  | cons a rest ih =>
    intro cfg cfg' h
    simp only [parse_args_fold] at h
    cases hp : parse_one ext cfg a with
    | error e => rw [hp] at h; simp at h
    | ok o =>
      cases o with
      | none => rw [hp] at h; simp at h
      | some cfg2 =>
        rw [hp] at h
        have h1 := parse_one_mono ext cfg a cfg2 hp
        have h2 := ih cfg2 cfg' h
        exact ⟨fun hd => h2.1 (h1.1 hd), fun hs => h2.2 (h1.2 hs)⟩

/-- Helper: the loop exits with `.ok none` only when help or version was
given. -/
theorem fold_ok_none (ext : Ext) : ∀ (args : List Arg) (cfg : Config),
    parse_args_fold ext cfg args = .ok none →
    Arg.help ∈ args ∨ Arg.version ∈ args := by
  intro args
  induction args with
  | nil => intro cfg h; simp [parse_args_fold] at h
  | cons a rest ih =>
    intro cfg h
    simp only [parse_args_fold] at h
    cases hp : parse_one ext cfg a with
    | error e => rw [hp] at h; simp at h
    | ok o =>
      cases o with
      | none =>
        rcases parse_one_help_or_version ext cfg a hp with rfl | rfl
        · exact Or.inl (List.mem_cons_self _ _)
        · exact Or.inr (List.mem_cons_self _ _)
      | some cfg2 =>
        rw [hp] at h
        rcases ih cfg2 h with h1 | h1
        · exact Or.inl (List.mem_cons_of_mem a h1)
        · exact Or.inr (List.mem_cons_of_mem a h1)

/-- Helper: if --delete-root-password appears among the options and the loop
completes, the flag is set in the final configuration. -/
theorem fold_delete_mem (ext : Ext) : ∀ (args : List Arg) (cfg cfg' : Config),
    Arg.deleteRootPassword ∈ args →
    parse_args_fold ext cfg args = .ok (some cfg') →
    cfg'.delete_root_password = true := by
  intro args
  induction args with
  | nil => intro cfg cfg' hm; cases hm
  | cons a rest ih =>
    intro cfg cfg' hm h
    simp only [parse_args_fold] at h
    cases hp : parse_one ext cfg a with
    | error e => rw [hp] at h; simp at h
    | ok o =>
      cases o with
      | none => rw [hp] at h; simp at h
      | some cfg2 =>
        rw [hp] at h
        rcases List.mem_cons.mp hm with rfl | hmem
        · have hx := hp
          simp only [parse_one, Except.ok.injEq, Option.some.injEq] at hx
          subst hx
          exact (fold_mono ext rest _ cfg' h).1 rfl
        · exact ih cfg2 cfg' hmem h

/-- Helper: if any root-password-source option appears among the options and
the loop completes, the source condition holds in the final configuration. -/
theorem fold_source_mem (ext : Ext) : ∀ (args : List Arg) (cfg cfg' : Config) (a0 : Arg),
    a0 ∈ args → a0.isRootPasswordSource →
    parse_args_fold ext cfg args = .ok (some cfg') →
    rpSourceB cfg' = true := by
  intro args
  induction args with
  | nil => intro cfg cfg' a0 hm; cases hm
  | cons a rest ih =>
    intro cfg cfg' a0 hm hs h
    simp only [parse_args_fold] at h
    cases hp : parse_one ext cfg a with
    | error e => rw [hp] at h; simp at h
    | ok o =>
      cases o with
      | none => rw [hp] at h; simp at h
      | some cfg2 =>
        rw [hp] at h
        rcases List.mem_cons.mp hm with rfl | hmem
        · exact (fold_mono ext rest cfg2 cfg' h).2 (parse_one_source_sets ext cfg a0 cfg2 hs hp)
        · exact ih cfg2 cfg' a0 hmem hs h

/-- C7 counterexample: the claim quantifies over every argument vector
containing the conflicting pair, but the vector
[--delete-root-password, --root-password=x, --help] parses with status 0 via
the help early exit (firstboot.c line 944: the parse loop returns before the
mutual-exclusion check at line 1119 is reached), so no fatal startup error
occurs there; the filesystem is still untouched. -/
theorem c7_help_counterexample :
    parse_argv ({} : Ext) [Arg.deleteRootPassword, Arg.rootPassword "x", Arg.help] =
      .ok none ∧
    firstboot_main {} [Arg.deleteRootPassword, Arg.rootPassword "x", Arg.help] {} =
      some (0, ({} : Fs)) := by
  exact ⟨rfl, rfl⟩

/-- C7 (amended): an argument vector that contains --delete-root-password
together with any other root-password source, and neither --help nor
--version (each ends parsing immediately with status 0 and performs no
provisioning I/O), makes parse_argv fail with a fatal error, and the program
performs no filesystem change at all: firstboot_main returns that error with
the filesystem exactly as it was. -/
theorem c7_delete_mutual_exclusion (ext : Ext) (args : List Arg) (fs : Fs)
    (hdel : Arg.deleteRootPassword ∈ args)
    (hsrc : ∃ a ∈ args, a.isRootPasswordSource)
    (hhelp : Arg.help ∉ args) (hver : Arg.version ∉ args) :
    ∃ e, parse_argv ext args = .error e ∧ firstboot_main ext args fs = some (e, fs) := by
  have hpa : ∃ e, parse_argv ext args = .error e := by
    cases hfold : parse_args_fold ext {} args with
    | error e => exact ⟨e, by simp [parse_argv, hfold]⟩
    | ok o =>
      cases o with
      | none =>
        rcases fold_ok_none ext args {} hfold with h | h
        · exact absurd h hhelp
        · exact absurd h hver
      | some cfg =>
        have hd : cfg.delete_root_password = true :=
          fold_delete_mem ext args {} cfg hdel hfold
        obtain ⟨a0, ha0m, ha0s⟩ := hsrc
        have hs : rpSourceB cfg = true :=
          fold_source_mem ext args {} cfg a0 ha0m ha0s hfold
        have hcond : (cfg.delete_root_password &&
            (cfg.copy_root_password || cfg.root_password.isSome ||
              cfg.prompt_root_password)) = true := by
          rw [hd]
          simpa [rpSourceB] using hs
        unfold parse_argv
        rw [hfold]
        dsimp only
        split_ifs with h1 h2 <;> exact ⟨-EINVAL, rfl⟩
  obtain ⟨e, he⟩ := hpa
  exact ⟨e, he, by simp [firstboot_main, he]⟩

/-- C7 witness: --delete-root-password combined with --root-password=x is
rejected and the filesystem is untouched. -/
theorem c7_delete_mutual_exclusion_witness :
    ∃ e, parse_argv ({} : Ext) [Arg.deleteRootPassword, Arg.rootPassword "x"] = .error e ∧
      firstboot_main {} [Arg.deleteRootPassword, Arg.rootPassword "x"] {} =
        some (e, ({} : Fs)) :=
  c7_delete_mutual_exclusion {} [Arg.deleteRootPassword, Arg.rootPassword "x"] {}
    (by decide) ⟨Arg.rootPassword "x", by decide, Or.inl ⟨"x", rfl⟩⟩ (by decide) (by decide)

end Firstboot
